import Mathlib

/-!
Shallow embedding of `src/app.py` of the Taylor Swift Lyrics Explorer.

The embedding models the functions the claims are about:
`get_genius_client`, `search_song_with_retry`, `display_lyrics_stats`,
`display_common_words`, and the search branch of `main`.  Network traffic is
modelled by a behaviour function giving the outcome of each successive
`genius.search_song` call; Streamlit page elements are modelled as values of
small inductive types, listed in the order the script emits them.
-/

/-- Song object returned by the Genius API: the only fields the app reads are
`song.title` and `song.lyrics`. -/
structure Song where
  title : String
  lyrics : String
deriving DecidableEq

/-- Exceptions relevant to the search path.  `httpError` is
`requests.exceptions.HTTPError`, carrying `e.response.status_code` and the text
of `str(e)`; `other` is any other exception, carrying `str(e)`. -/
inductive PyExc
  | httpError (status : Nat) (msg : String)
  | other (msg : String)
deriving DecidableEq

/-- Text of `str(e)` for an exception. -/
def excStr : PyExc → String
  | PyExc.httpError _ m => m
  | PyExc.other m => m

/-- Predicate for the `except HTTPError as e: if e.response.status_code == 429`
branch of `search_song_with_retry`: true exactly for an `HTTPError` whose
status is 429. -/
def isRateLimit : PyExc → Bool
  | PyExc.httpError status _ => status == 429
  | PyExc.other _ => false

/-- Outcome of one invocation of `genius.search_song(title, artist)`: it either
raises an exception or returns a song or `None` (the falsy case). -/
abbrev CallOutcome := Except PyExc (Option Song)

instance : DecidableEq CallOutcome := fun a b =>
  match a, b with
  | Except.ok x, Except.ok y => decidable_of_iff (x = y) (by simp)
  | Except.error x, Except.error y => decidable_of_iff (x = y) (by simp)
  | Except.ok _, Except.error _ => isFalse (by simp)
  | Except.error _, Except.ok _ => isFalse (by simp)

/-- Observable result of running `search_song_with_retry`: the value returned
(or the exception that escapes), the number of calls made to
`genius.search_song`, and the successive waits passed to `time.sleep`. -/
structure RunResult where
  result : Except PyExc (Option Song)
  calls : Nat
  sleeps : List Nat
deriving DecidableEq

/-- Body of the `for attempt in range(max_retries)` loop of
`search_song_with_retry` (src/app.py lines 66-78), run over the list of
remaining attempt indices.  `b attempt` is the outcome of the call made at
that attempt.  A truthy song returns immediately; a falsy result returns
`None` on the last attempt and otherwise falls through to the next iteration;
a 429 `HTTPError` sleeps `(attempt + 1) * 5` and continues; any other
exception escapes (`raise`, or uncaught for a non-`HTTPError`).  Falling off
the loop returns `None` (line 79). -/
def runAttempts (b : Nat → CallOutcome) (maxRetries : Nat) : List Nat → RunResult
  | [] => ⟨Except.ok none, 0, []⟩
  | attempt :: rest =>
    match b attempt with
    | Except.ok (some s) => ⟨Except.ok (some s), 1, []⟩
    | Except.ok none =>
      if attempt = maxRetries - 1 then ⟨Except.ok none, 1, []⟩
      else
        let r := runAttempts b maxRetries rest
        ⟨r.result, r.calls + 1, r.sleeps⟩
    | Except.error e =>
      if isRateLimit e then
        let r := runAttempts b maxRetries rest
        ⟨r.result, r.calls + 1, (attempt + 1) * 5 :: r.sleeps⟩
      else ⟨Except.error e, 1, []⟩

/-- Model of `search_song_with_retry(title, artist, max_retries)` (src/app.py
lines 65-79), as a function of the behaviour of `genius.search_song` over the
run.  The default value of `max_retries` in the source is 3. -/
def search_song_with_retry (b : Nat → CallOutcome) (maxRetries : Nat) : RunResult :=
  runAttempts b maxRetries (List.range maxRetries)

/-- Error message shown by `get_genius_client` when the token is missing. -/
def token_error_msg : String :=
  "GENIUS_TOKEN environment variable not found. Please set it in your deployment settings."

/-- Configuration passed to `lyricsgenius.Genius(...)` in `get_genius_client`. -/
structure GeniusConfig where
  token : String
  verbose : Bool
  remove_section_headers : Bool
  skip_non_songs : Bool
  excluded_terms : List String
  timeout : Nat
deriving DecidableEq

/-- Result of `get_genius_client`: either the script halts (via `st.error`
followed by `st.stop()`) or an API client is constructed. -/
inductive ClientResult
  | halted (errMsg : String)
  | client (cfg : GeniusConfig)
deriving DecidableEq

/-- Model of `get_genius_client` (src/app.py lines 34-60) as a function of the
value of the `GENIUS_TOKEN` environment variable (`none` when unset).  Python
evaluates `if not GENIUS_TOKEN` as true for an unset or an empty variable;
the script then reports `token_error_msg` and stops before
`lyricsgenius.Genius(...)` is constructed, so no client — and hence no network
call — can exist.  (The surrounding `except Exception` re-reports and stops
again; either way the run halts with no client.) -/
def get_genius_client (envToken : Option String) : ClientResult :=
  match envToken with
  | none => ClientResult.halted token_error_msg
  | some tok =>
    if tok = "" then ClientResult.halted token_error_msg
    else ClientResult.client ⟨tok, false, true, true, ["(Remix)", "(Live)"], 20⟩

/-- Python `str.lower()` on one string: lowercase every character. -/
def py_lower (s : String) : String := String.mk (s.data.map Char.toLower)

/-- Helper for Python `str.split()`: scans the character list keeping the
current run of non-whitespace characters (reversed); each maximal nonempty
run becomes one piece. -/
def splitWs : List Char → List Char → List String
  | cur, [] => if cur.isEmpty then [] else [String.mk cur.reverse]
  | cur, c :: cs =>
    if c.isWhitespace then
      if cur.isEmpty then splitWs [] cs
      else String.mk cur.reverse :: splitWs [] cs
    else splitWs (c :: cur) cs

/-- Python `str.split()` with no argument: split on whitespace runs, dropping
empty pieces. -/
def py_split (s : String) : List String :=
  splitWs [] s.data

/-- One element emitted by `display_lyrics_stats`: the three `st.metric` calls
and the `st.warning` of its `except` branch.  The ratio is displayed as
`f"{q:.1f}%"`; the embedding records the exact rational value
`(unique_words / word_count) * 100` being formatted. -/
inductive StatItem
  | totalWords (n : Nat)
  | uniqueWords (n : Nat)
  | uniqueRatio (q : ℚ)
  | warning
deriving DecidableEq

/-- Model of `display_lyrics_stats` (src/app.py lines 104-118), returning the
page elements in emission order.  The metrics for `word_count` and
`unique_words` are emitted first; evaluating the third metric divides by
`word_count`, which raises `ZeroDivisionError` exactly when `word_count = 0`,
in which case the `except` branch emits a warning in place of that metric. -/
def display_lyrics_stats (lyrics : String) : List StatItem :=
  let words := py_split lyrics
  let word_count := words.length
  let unique_words := (words.map py_lower).dedup.length
  if word_count = 0 then
    [StatItem.totalWords word_count, StatItem.uniqueWords unique_words, StatItem.warning]
  else
    [StatItem.totalWords word_count, StatItem.uniqueWords unique_words,
      StatItem.uniqueRatio ((unique_words : ℚ) / (word_count : ℚ) * 100)]

/-- ASCII fragment of the regex character class `\w`: letters, digits and the
underscore. -/
def isWordChar (c : Char) : Bool := c.isAlphanum || c == '_'

/-- Helper for `re.findall(r'\w+', s)`: scans the character list keeping the
current run of word characters (reversed); each maximal nonempty run becomes a
token. -/
def wordRuns : List Char → List Char → List String
  | cur, [] => if cur.isEmpty then [] else [String.mk cur.reverse]
  | cur, c :: cs =>
    if isWordChar c then wordRuns (c :: cur) cs
    else if cur.isEmpty then wordRuns [] cs
    else String.mk cur.reverse :: wordRuns [] cs

/-- Model of `re.findall(r'\w+', lyrics.lower())` from `display_common_words`
(src/app.py line 125). -/
def findall_words (lyrics : String) : List String :=
  wordRuns [] (lyrics.data.map Char.toLower)

/-- Fixed stop-word list of `display_common_words` (src/app.py line 126). -/
def common_words : List String :=
  ["i", "you", "the", "a", "and", "to", "it", "me", "my", "we", "is", "in", "of", "that", "this"]

/-- Filtered word list of `display_common_words` (src/app.py line 127):
`[word for word in words if word not in common_words and len(word) > 3]`. -/
def filtered_words (lyrics : String) : List String :=
  (findall_words lyrics).filter (fun w => decide (w ∉ common_words) && decide (3 < w.length))

/-- Helper for `firstOccur`: drop elements already seen, keep new ones. -/
def firstOccurAux (seen : List String) : List String → List String
  | [] => []
  | w :: rest =>
    if w ∈ seen then firstOccurAux seen rest
    else w :: firstOccurAux (w :: seen) rest

/-- Distinct elements of a list in order of first occurrence: the iteration
order of a Python `Counter` built from the list. -/
def firstOccur (l : List String) : List String := firstOccurAux [] l

/-- Entries of `Counter(filtered_words)`: each distinct word, in
first-occurrence order, paired with its number of occurrences. -/
def word_counts (lyrics : String) : List (String × Nat) :=
  (firstOccur (filtered_words lyrics)).map (fun w => (w, (filtered_words lyrics).count w))

/-- Ranking relation used by `most_common`: an entry comes first when its
count is at least the other count. -/
def rankLE (p q : String × Nat) : Prop := q.2 ≤ p.2

instance : DecidableRel rankLE := fun p q => Nat.decLe q.2 p.2

instance : IsTotal (String × Nat) rankLE :=
  ⟨fun a b => Nat.le_total b.2 a.2⟩

instance : IsTrans (String × Nat) rankLE :=
  ⟨fun _ _ _ hab hbc => Nat.le_trans hbc hab⟩

/-- Model of the table built by `display_common_words` (src/app.py lines
120-136): `Counter(filtered_words).most_common(15)`, i.e. the counter entries
sorted by count, largest first, truncated to the first 15.  The sort is a
stable insertion sort, matching the `most_common` tie order (entries with
equal counts keep first-encounter order). -/
def display_common_words (lyrics : String) : List (String × Nat) :=
  (List.insertionSort rankLE (word_counts lyrics)).take 15

/-- One page element rendered by the search branch of `main` (src/app.py
lines 170-226). -/
inductive Display
  | songHeader (title : String)
  | lyricsText (lyrics : String)
  | statsSection (items : List StatItem)
  | wordCloudSection
  | commonWordsSection (table : List (String × Nat))
  | errorNotFound
  | tipTryExact
  | error403
  | errorGeneric (msg : String)
deriving DecidableEq

/-- Whether `needle` occurs at the head of `hay`. -/
def leadMatch : List Char → List Char → Bool
  | [], _ => true
  | _ :: _, [] => false
  | a :: as, b :: bs => a == b && leadMatch as bs

/-- Python substring test `needle in hay`, used for `"403" in str(e)`. -/
def hasSub (needle : List Char) : List Char → Bool
  | [] => leadMatch needle []
  | c :: cs => leadMatch needle (c :: cs) || hasSub needle cs

/-- Model of the `try`/`except` block of `main` around the search call
(src/app.py lines 170-226): given the outcome of `search_song_with_retry`,
the page elements rendered in order, as toggled by the three session-state
checkboxes.  A truthy song renders the header, the lyrics tab and the enabled
analysis sections; `None` renders the not-found error and the tip; an escaped
exception renders the 403-specific message when `"403" in str(e)` and
otherwise the generic `st.error(f"An error occurred: {str(e)}")`, whose text
the `errorGeneric` constructor carries as `str(e)`. -/
def render_search (showStats showWordcloud showCommon : Bool)
    (res : Except PyExc (Option Song)) : List Display :=
  match res with
  | Except.ok (some song) =>
    [Display.songHeader song.title, Display.lyricsText song.lyrics]
      ++ (if showStats then [Display.statsSection (display_lyrics_stats song.lyrics)] else [])
      ++ (if showWordcloud then [Display.wordCloudSection] else [])
      ++ (if showCommon then [Display.commonWordsSection (display_common_words song.lyrics)] else [])
  | Except.ok none => [Display.errorNotFound, Display.tipTryExact]
  | Except.error e =>
    if hasSub "403".data (excStr e).data then [Display.error403]
    else [Display.errorGeneric (excStr e)]

/-- Search flow of `main`: run `search_song_with_retry(song_title,
"Taylor Swift")` with the source default `max_retries = 3` under the given
per-call behaviour, then render the outcome. -/
def main_run (showStats showWordcloud showCommon : Bool) (b : Nat → CallOutcome) : List Display :=
  render_search showStats showWordcloud showCommon (search_song_with_retry b 3).result

/-- Lyrics string with sixteen distinct filtered words, one of them repeated:
`most_common(15)` must leave one entry out. -/
def sixteen_words : String :=
  "aaaa bbbb cccc dddd eeee ffff gggg hhhh iiii jjjj kkkk llll mmmm nnnn oooo pppp pppp"

/-- Concrete value of the default attempt index list. -/
theorem range_three_eq : List.range 3 = [0, 1, 2] := rfl

/-- C1: if every call to the remote search raises an `HTTPError` with status
429, then `search_song_with_retry` with the source default `max_retries = 3`
invokes `genius.search_song` exactly `max_retries` times and then returns
`None`. -/
theorem C1_retry_gives_up_after_max_retries (b : Nat → CallOutcome)
    (h : ∀ k, k < 3 → ∃ m, b k = Except.error (PyExc.httpError 429 m)) :
    (search_song_with_retry b 3).calls = 3 ∧
      (search_song_with_retry b 3).result = Except.ok none := by
  obtain ⟨m0, h0⟩ := h 0 (by omega)
  obtain ⟨m1, h1⟩ := h 1 (by omega)
  obtain ⟨m2, h2⟩ := h 2 (by omega)
  rw [search_song_with_retry, range_three_eq]
  simp [runAttempts, h0, h1, h2, isRateLimit]

/-- Witness for C1: the behaviour whose every call raises a 429 error. -/
theorem C1_witness :
    (∀ k, k < 3 →
        ∃ m, (fun _ : Nat => (Except.error (PyExc.httpError 429 "rate limited") : CallOutcome)) k
          = Except.error (PyExc.httpError 429 m)) ∧
      (search_song_with_retry (fun _ => Except.error (PyExc.httpError 429 "rate limited")) 3).calls = 3 ∧
      (search_song_with_retry (fun _ => Except.error (PyExc.httpError 429 "rate limited")) 3).result
        = Except.ok none :=
  ⟨fun _ _ => ⟨"rate limited", rfl⟩,
    C1_retry_gives_up_after_max_retries _ (fun _ _ => ⟨"rate limited", rfl⟩)⟩

/-- C2: under repeated 429 responses with the default `max_retries = 3`, the
waits slept are exactly 5, 10, 15 seconds — strictly increasing and linear,
the wait recorded after attempt k (0-based) being `(k + 1) * 5`. -/
theorem C2_linear_backoff (b : Nat → CallOutcome)
    (h : ∀ k, k < 3 → ∃ m, b k = Except.error (PyExc.httpError 429 m)) :
    (search_song_with_retry b 3).sleeps = [5, 10, 15] ∧
      List.Chain' (fun x y => x < y) (search_song_with_retry b 3).sleeps ∧
      ∀ k, k < (search_song_with_retry b 3).sleeps.length →
        (search_song_with_retry b 3).sleeps[k]? = some ((k + 1) * 5) := by
  obtain ⟨m0, h0⟩ := h 0 (by omega)
  obtain ⟨m1, h1⟩ := h 1 (by omega)
  obtain ⟨m2, h2⟩ := h 2 (by omega)
  have hs : (search_song_with_retry b 3).sleeps = [5, 10, 15] := by
    rw [search_song_with_retry, range_three_eq]
    simp [runAttempts, h0, h1, h2, isRateLimit]
  refine ⟨hs, ?_, ?_⟩
  · rw [hs]
    simp [List.chain'_cons]
  · simp only [hs, List.length_cons, List.length_nil]
    intro k hk
    interval_cases k <;> rfl

/-- Witness for C2: the behaviour whose every call raises a 429 error. -/
theorem C2_witness :
    (∀ k, k < 3 →
        ∃ m, (fun _ : Nat => (Except.error (PyExc.httpError 429 "rate limited") : CallOutcome)) k
          = Except.error (PyExc.httpError 429 m)) ∧
      (search_song_with_retry (fun _ => Except.error (PyExc.httpError 429 "rate limited")) 3).sleeps
        = [5, 10, 15] :=
  ⟨fun _ _ => ⟨"rate limited", rfl⟩,
    (C2_linear_backoff _ (fun _ _ => ⟨"rate limited", rfl⟩)).1⟩

/-- C3: with `GENIUS_TOKEN` unset or empty, `get_genius_client` halts with the
error message and constructs no client, so no network call is possible; a
client is constructed only when a nonempty credential is present. -/
theorem C3_missing_token_halts (env : Option String)
    (h : env = none ∨ env = some "") :
    get_genius_client env = ClientResult.halted token_error_msg ∧
      (∀ cfg, get_genius_client env ≠ ClientResult.client cfg) ∧
      ∀ envB cfg, get_genius_client envB = ClientResult.client cfg →
        ∃ t, envB = some t ∧ t ≠ "" := by
  refine ⟨?_, ?_, ?_⟩
  · rcases h with h | h <;> subst h <;> simp [get_genius_client]
  · rcases h with h | h <;> subst h <;> simp [get_genius_client]
  · intro envB cfg hc
    match envB with
    | none => simp [get_genius_client] at hc
    | some t =>
      refine ⟨t, rfl, ?_⟩
      intro ht
      subst ht
      simp [get_genius_client] at hc

/-- Witness for C3: the unset environment variable. -/
theorem C3_witness :
    ((none : Option String) = none ∨ (none : Option String) = some "") ∧
      get_genius_client none = ClientResult.halted token_error_msg :=
  ⟨Or.inl rfl, (C3_missing_token_halts none (Or.inl rfl)).1⟩

/-- C10: a falsy search result triggers an immediate re-invocation with no
sleep, up to `max_retries = 3` invocations in total, `None` being returned
only after the last attempt; the song is returned on the first attempt whose
result is truthy. -/
theorem C10_falsy_result_immediate_retry (b : Nat → CallOutcome) :
    ((∀ k, k < 3 → b k = Except.ok none) →
        search_song_with_retry b 3 = ⟨Except.ok none, 3, []⟩) ∧
      ∀ j s, j < 3 → (∀ k, k < j → b k = Except.ok none) →
        b j = Except.ok (some s) →
        search_song_with_retry b 3 = ⟨Except.ok (some s), j + 1, []⟩ := by
  constructor
  · intro h
    have h0 := h 0 (by omega)
    have h1 := h 1 (by omega)
    have h2 := h 2 (by omega)
    rw [search_song_with_retry, range_three_eq]
    simp [runAttempts, h0, h1, h2]
  · intro j s hj hprev hbj
    interval_cases j
    · rw [search_song_with_retry, range_three_eq]
      simp [runAttempts, hbj]
    · have h0 := hprev 0 (by omega)
      rw [search_song_with_retry, range_three_eq]
      simp [runAttempts, h0, hbj]
    · have h0 := hprev 0 (by omega)
      have h1 := hprev 1 (by omega)
      rw [search_song_with_retry, range_three_eq]
      simp [runAttempts, h0, h1, hbj]

/-- Witness for C10: an all-falsy behaviour, and a behaviour whose second call
finds the song. -/
theorem C10_witness :
    search_song_with_retry (fun _ => Except.ok none) 3 = ⟨Except.ok none, 3, []⟩ ∧
      search_song_with_retry
          (fun k => if k = 0 then Except.ok none else Except.ok (some ⟨"Love Story", "la la"⟩)) 3 =
        ⟨Except.ok (some ⟨"Love Story", "la la"⟩), 2, []⟩ :=
  ⟨(C10_falsy_result_immediate_retry _).1 (fun _ _ => rfl),
    (C10_falsy_result_immediate_retry _).2 1 ⟨"Love Story", "la la"⟩ (by omega)
      (fun k hk => by interval_cases k; rfl) rfl⟩

/-- C4 counterexample: on the empty lyrics string the word count is 0, the
ratio division raises, and `display_lyrics_stats` never shows a Unique Ratio
metric — so the claimed behaviour does not hold for every lyrics string. -/
theorem C4_counterexample :
    display_lyrics_stats ""
        = [StatItem.totalWords 0, StatItem.uniqueWords 0, StatItem.warning] ∧
      ∀ q, StatItem.uniqueRatio q ∉ display_lyrics_stats "" := by
  have h : display_lyrics_stats ""
      = [StatItem.totalWords 0, StatItem.uniqueWords 0, StatItem.warning] := rfl
  refine ⟨h, ?_⟩
  intro q
  rw [h]
  simp

/-- C4 (amended): for every lyrics string with at least one
whitespace-separated token, `display_lyrics_stats` shows Total Words as the
number of whitespace-separated tokens, Unique Words as the number of distinct
tokens after lowercasing, and Unique Ratio as `(unique / total) * 100`
(displayed to one decimal place). -/
theorem C4_stats_correct (lyrics : String) (h : py_split lyrics ≠ []) :
    display_lyrics_stats lyrics =
      [StatItem.totalWords (py_split lyrics).length,
        StatItem.uniqueWords ((py_split lyrics).map py_lower).toFinset.card,
        StatItem.uniqueRatio
          ((((py_split lyrics).map py_lower).toFinset.card : ℚ) /
            ((py_split lyrics).length : ℚ) * 100)] := by
  have hlen : (py_split lyrics).length ≠ 0 := by
    simpa using h
  have hcard : ((py_split lyrics).map py_lower).toFinset.card
      = ((py_split lyrics).map py_lower).dedup.length :=
    List.card_toFinset _
  simp [display_lyrics_stats, hlen, hcard]

/-- Witness for C4 at a concrete three-token lyrics string. -/
theorem C4_witness :
    py_split "Love love STORY" ≠ [] ∧
      display_lyrics_stats "Love love STORY"
        = [StatItem.totalWords 3, StatItem.uniqueWords 2,
            StatItem.uniqueRatio (((2 : Nat) : ℚ) / ((3 : Nat) : ℚ) * 100)] := by
  have hL : (py_split "Love love STORY").length = 3 := by decide
  have hC : ((py_split "Love love STORY").map py_lower).toFinset.card = 2 := by decide
  refine ⟨by decide, ?_⟩
  rw [C4_stats_correct "Love love STORY" (by decide), hL, hC]

/-- C9: for a lyrics string with zero whitespace-separated tokens, the ratio
computation of `display_lyrics_stats` divides by a word count of 0, the
function takes its exception branch, and a warning is shown while the
three-metric display is never completed (no Unique Ratio metric appears). -/
theorem C9_zero_words_takes_warning_branch (lyrics : String)
    (h : py_split lyrics = []) :
    display_lyrics_stats lyrics
        = [StatItem.totalWords 0, StatItem.uniqueWords 0, StatItem.warning] ∧
      StatItem.warning ∈ display_lyrics_stats lyrics ∧
      ∀ q, StatItem.uniqueRatio q ∉ display_lyrics_stats lyrics := by
  have he : display_lyrics_stats lyrics
      = [StatItem.totalWords 0, StatItem.uniqueWords 0, StatItem.warning] := by
    simp [display_lyrics_stats, h]
  refine ⟨he, ?_, ?_⟩
  · rw [he]
    simp
  · intro q
    rw [he]
    simp

/-- Witness for C9: a whitespace-only lyrics string has zero tokens and
reaches the warning branch at the public interface. -/
theorem C9_witness :
    py_split " \n\t " = [] ∧
      display_lyrics_stats " \n\t "
        = [StatItem.totalWords 0, StatItem.uniqueWords 0, StatItem.warning] :=
  ⟨by decide, (C9_zero_words_takes_warning_branch " \n\t " (by decide)).1⟩

/-- C5: every entry of the filtered word list of `display_common_words` is a
token of the lowercased text, is not in the fixed 15-entry stop-word list,
and has length strictly greater than 3. -/
theorem C5_filter_excludes_stop_words_and_short (lyrics : String) (w : String)
    (h : w ∈ filtered_words lyrics) :
    w ∈ findall_words lyrics ∧ w ∉ common_words ∧ 3 < w.length := by
  rw [filtered_words, List.mem_filter] at h
  rcases h with ⟨h1, h2⟩
  simp only [Bool.and_eq_true, decide_eq_true_eq] at h2
  exact ⟨h1, h2.1, h2.2⟩

/-- Witness for C5: the token list of "Shake it off" contains "shake" after
filtering. -/
theorem C5_witness :
    "shake" ∈ filtered_words "Shake it off" ∧
      "shake" ∈ findall_words "Shake it off" ∧
      "shake" ∉ common_words ∧ 3 < "shake".length :=
  ⟨by decide, C5_filter_excludes_stop_words_and_short "Shake it off" "shake" (by decide)⟩

/-- Helper: an exception whose result escapes the retry loop is never a 429
rate limit (429s are always consumed by the sleep-and-continue branch). -/
theorem runAttempts_error_not_rate_limit (b : Nat → CallOutcome) (M : Nat) :
    ∀ (l : List Nat) (e : PyExc),
      (runAttempts b M l).result = Except.error e → isRateLimit e = false := by
  intro l
  induction l with
  | nil =>
    intro e h
    simp [runAttempts] at h
  | cons a rest ih =>
    intro e h
    unfold runAttempts at h
    split at h
    · simp at h
    · split at h
      · simp at h
      · exact ih e h
    · split at h
      · exact ih e h
      · rename_i e2 hnrl
        simp only at h
        rw [Except.error.injEq] at h
        subst h
        simpa using hnrl

/-- C6: the table produced by `display_common_words` has at most 15 rows, is
ranked in non-increasing order of count, and every listed entry has a count
at least that of any counter entry not listed — the semantics of
`Counter.most_common(15)`. -/
theorem C6_most_common_ranking (lyrics : String) :
    (display_common_words lyrics).length ≤ 15 ∧
      List.Pairwise rankLE (display_common_words lyrics) ∧
      ∀ p ∈ word_counts lyrics, p ∉ display_common_words lyrics →
        ∀ q ∈ display_common_words lyrics, p.2 ≤ q.2 := by
  have hsorted : List.Pairwise rankLE (List.insertionSort rankLE (word_counts lyrics)) :=
    List.sorted_insertionSort rankLE (word_counts lyrics)
  refine ⟨?_, ?_, ?_⟩
  · simp only [display_common_words, List.length_take]
    exact Nat.min_le_left _ _
  · exact List.Pairwise.sublist (List.take_sublist _ _) hsorted
  · intro p hp hnp q hq
    have hperm : List.Perm (List.insertionSort rankLE (word_counts lyrics))
        (word_counts lyrics) :=
      List.perm_insertionSort rankLE (word_counts lyrics)
    have hps : p ∈ List.insertionSort rankLE (word_counts lyrics) := hperm.mem_iff.2 hp
    have hsplit := List.take_append_drop 15 (List.insertionSort rankLE (word_counts lyrics))
    have hpd : p ∈ (List.insertionSort rankLE (word_counts lyrics)).drop 15 := by
      have hin : p ∈ (List.insertionSort rankLE (word_counts lyrics)).take 15 ++
          (List.insertionSort rankLE (word_counts lyrics)).drop 15 := by
        rw [hsplit]
        exact hps
      rcases List.mem_append.1 hin with h | h
      · exact absurd h hnp
      · exact h
    have hpair : List.Pairwise rankLE
        ((List.insertionSort rankLE (word_counts lyrics)).take 15 ++
          (List.insertionSort rankLE (word_counts lyrics)).drop 15) := by
      rw [hsplit]
      exact hsorted
    exact (List.pairwise_append.1 hpair).2.2 q hq p hpd

/-- Witness for C6: with sixteen distinct filtered words the entry
`("oooo", 1)` is counted but not listed, and the listed entry `("pppp", 2)`
has at least its count. -/
theorem C6_witness :
    ("oooo", 1) ∈ word_counts sixteen_words ∧
      ("oooo", 1) ∉ display_common_words sixteen_words ∧
      ("pppp", 2) ∈ display_common_words sixteen_words ∧
      (1 : Nat) ≤ 2 :=
  ⟨by decide, by decide, by decide,
    (C6_most_common_ranking sixteen_words).2.2 ("oooo", 1) (by decide) (by decide)
      ("pppp", 2) (by decide)⟩

/-- C7: when the search yields `None` with no escaping exception, `main`
renders exactly the song-not-found error plus the exact-title tip, and no
lyrics or analysis element. -/
theorem C7_not_found_guidance (showStats showWordcloud showCommon : Bool)
    (b : Nat → CallOutcome)
    (h : (search_song_with_retry b 3).result = Except.ok none) :
    main_run showStats showWordcloud showCommon b
        = [Display.errorNotFound, Display.tipTryExact] ∧
      (∀ t, Display.songHeader t ∉ main_run showStats showWordcloud showCommon b) ∧
      (∀ l, Display.lyricsText l ∉ main_run showStats showWordcloud showCommon b) ∧
      (∀ it, Display.statsSection it ∉ main_run showStats showWordcloud showCommon b) ∧
      Display.wordCloudSection ∉ main_run showStats showWordcloud showCommon b ∧
      ∀ tab, Display.commonWordsSection tab ∉ main_run showStats showWordcloud showCommon b := by
  have he : main_run showStats showWordcloud showCommon b
      = [Display.errorNotFound, Display.tipTryExact] := by
    unfold main_run
    rw [h]
    rfl
  refine ⟨he, ?_, ?_, ?_, ?_, ?_⟩ <;> simp only [he] <;> simp

/-- Witness for C7: the behaviour whose every call returns `None`. -/
theorem C7_witness :
    (search_song_with_retry (fun _ => Except.ok none) 3).result = Except.ok none ∧
      main_run true true true (fun _ => Except.ok none)
        = [Display.errorNotFound, Display.tipTryExact] :=
  ⟨rfl, (C7_not_found_guidance true true true (fun _ => Except.ok none) rfl).1⟩

/-- C8 counterexample: a 403 `HTTPError` escaping the search is surfaced as
the 403-specific multi-line message, not as the generic error message the
claim describes. -/
theorem C8_counterexample :
    main_run true true true
        (fun _ => Except.error (PyExc.httpError 403 "403 Client Error: Forbidden for url"))
      = [Display.error403] ∧
      ∀ m, Display.errorGeneric m ∉ main_run true true true
        (fun _ => Except.error (PyExc.httpError 403 "403 Client Error: Forbidden for url")) := by
  have he : main_run true true true
      (fun _ => Except.error (PyExc.httpError 403 "403 Client Error: Forbidden for url"))
      = [Display.error403] := by decide
  refine ⟨he, ?_⟩
  intro m
  rw [he]
  simp

/-- C8 (amended): every exception escaping the search is a non-429 error
(429 rate limits are consumed by the retry loop, and a non-429 `HTTPError`
raised by a call is re-raised out of `search_song_with_retry`), and `main`
surfaces it as a single on-page error message: the 403-specific message when
`"403"` occurs in `str(e)`, and the generic message otherwise. -/
theorem C8_escaped_exception_single_message
    (showStats showWordcloud showCommon : Bool) (b : Nat → CallOutcome) (e : PyExc)
    (h : (search_song_with_retry b 3).result = Except.error e) :
    isRateLimit e = false ∧
      (main_run showStats showWordcloud showCommon b).length = 1 ∧
      (hasSub "403".data (excStr e).data = true →
        main_run showStats showWordcloud showCommon b = [Display.error403]) ∧
      (hasSub "403".data (excStr e).data = false →
        main_run showStats showWordcloud showCommon b = [Display.errorGeneric (excStr e)]) ∧
      ∀ status m, b 0 = Except.error (PyExc.httpError status m) → status ≠ 429 →
        (search_song_with_retry b 3).result = Except.error (PyExc.httpError status m) := by
  have he : main_run showStats showWordcloud showCommon b
      = render_search showStats showWordcloud showCommon (Except.error e) := by
    unfold main_run
    rw [h]
  refine ⟨runAttempts_error_not_rate_limit b 3 _ e h, ?_, ?_, ?_, ?_⟩
  · rw [he]
    by_cases h4 : hasSub "403".data (excStr e).data <;> simp [render_search, h4]
  · intro h4
    rw [he]
    simp [render_search, h4]
  · intro h4
    rw [he]
    simp [render_search, h4]
  · intro status m hb0 hst
    have hrl : isRateLimit (PyExc.httpError status m) = false := by
      simp [isRateLimit, hst]
    rw [search_song_with_retry, range_three_eq]
    simp [runAttempts, hb0, hrl]

/-- Witness for C8: a non-HTTP exception escaping on the first call is shown
exactly once, as the generic message. -/
theorem C8_witness :
    (search_song_with_retry (fun _ => Except.error (PyExc.other "boom")) 3).result
        = Except.error (PyExc.other "boom") ∧
      main_run true true true (fun _ => Except.error (PyExc.other "boom"))
        = [Display.errorGeneric (excStr (PyExc.other "boom"))] :=
  ⟨rfl,
    (C8_escaped_exception_single_message true true true
        (fun _ => Except.error (PyExc.other "boom")) (PyExc.other "boom") rfl).2.2.2.1
      (by decide)⟩
